import Mathlib

/-!
# Verification of the Lucie multi-AI core

A shallow embedding, in Lean 4, of the multi-AI subsystem of the Lucie
repository:

* `python-ai/domains/multi_ai/knowledge_consolidator.py` (class
  `KnowledgeConsolidator`),
* `python-ai/domains/multi_ai/response_evaluator.py` (class
  `ResponseEvaluator` and dataclass `EvaluationMetrics`),
* `python-ai/domains/multi_ai/ai_orchestrator.py` (class `AIOrchestrator`,
  in particular `_select_provider_and_model` and the dispatch loop of
  `generate_multi_provider_response`),
* `python-ai/config/ollama_config.py` (class `OllamaConfig`).

Modelling conventions, fixed once for the whole file:

* Python `float` values are embedded as `ℚ`.  Every numeric literal in the
  source (0.6, 0.8, 1.2, ...) is an exact decimal, so it is represented by
  the corresponding rational; the comparisons the claims are about
  (`> 0.8`, `> 0.5`, thresholds) involve only such decimals and small
  integer ratios, where double and rational arithmetic agree.
* Python dictionaries that carry a fixed set of keys are embedded as
  structures whose fields are `Option`-valued when the source sometimes
  omits the key (`none` = key absent, `some v` = key present with value
  `v`).
* Code that can raise is embedded in `Except String`; a raised exception is
  `Except.error`.
* Python `str.split()` (no argument) splits on runs of whitespace and drops
  empty pieces; `str.lower()` is `String.toLower`; `len` on a string counts
  characters, which `String.length` does.
-/

set_option maxRecDepth 4096

namespace Lucie

/-! ## Text primitives shared by the consolidator and the evaluator -/

/-- Python `s.split()`: split on whitespace, dropping empty pieces. -/
def pyWords (s : String) : List String :=
  (s.split Char.isWhitespace).filter (fun w => w ≠ "")

/-- Python `set(s.lower().split())`: the set of lowercased words of `s`. -/
def wordSet (s : String) : Finset String :=
  (pyWords s.toLower).toFinset

/-- All unordered pairs of a list, in iteration order of the Python double
loop `for i in range(n): for j in range(i+1, n):`. -/
def allPairs {α : Type} : List α → List (α × α)
  | [] => []
  | x :: xs => (xs.map (fun y => (x, y))) ++ allPairs xs

/-- `KnowledgeConsolidator._calculate_text_similarity`
(`knowledge_consolidator.py` lines 456-495): average Jaccard similarity
over the word sets of all pairs of texts, skipping pairs where a side is
empty; `1.0` for at most one text. -/
def calcTextSimilarity (texts : List String) : ℚ :=
  if texts.length ≤ 1 then 1
  else
    let wordSets := texts.map wordSet
    let sims := (allPairs wordSets).filterMap (fun p =>
      if p.1 = ∅ ∨ p.2 = ∅ then none
      else if 0 < (p.1 ∪ p.2).card then
        some (((p.1 ∩ p.2).card : ℚ) / ((p.1 ∪ p.2).card : ℚ))
      else none)
    sims.sum / (max 1 sims.length : ℚ)

/-! ## Data model: responses and metadata -/

/-- The part of a response metadata dictionary the multi-AI core reads:
`confidence` and `model` (each possibly absent). -/
structure RespMeta where
  model : Option String := none
  confidence : Option ℚ := none
  deriving Repr, DecidableEq

/-- A `GenerationResult`-style response dictionary: `{"text": ...,
"metadata": {...}}`.  A missing `text` key reads as `""` in the source
(`r.get("text", "")`), so `text` is total here. -/
structure Response where
  text : String := ""
  metadata : RespMeta := {}
  deriving Repr, DecidableEq

/-- The metadata dictionary of a consolidation result.  Each field is a key
the consolidator may write; `none` means the key is absent. -/
structure ConsMeta where
  model : Option String := none
  confidence : Option ℚ := none
  weights : Option (List ℚ) := none
  agreement_level : Option ℚ := none
  threshold_used : Option ℕ := none
  selection_method : Option String := none
  selected_confidence : Option ℚ := none
  ensemble_choice : Option String := none
  methods_agreement : Option ℚ := none
  consolidation_method : Option String := none
  source_count : Option ℕ := none
  source_models : Option (List String) := none
  error : Option String := none
  deriving Repr, DecidableEq

/-- `{"text": ..., "metadata": {...}}` as returned by
`consolidate_responses`. -/
structure ConsolidationResult where
  text : String
  metadata : ConsMeta
  deriving Repr, DecidableEq

/-! ## KnowledgeConsolidator -/

/-- The model-name → capability-tier table of
`KnowledgeConsolidator._get_model_tier` (`knowledge_consolidator.py`
lines 508-533), in dictionary insertion order. -/
def modelTiers : List (String × ℕ) :=
  [("gpt-4o", 10), ("gpt-4-turbo", 9), ("gpt-4", 9), ("gpt-3.5-turbo", 7),
   ("claude-3-opus", 10), ("claude-3-sonnet", 8), ("claude-3-haiku", 7),
   ("claude-2.1", 7),
   ("mistral-large", 9), ("mistral-medium", 7), ("mistral-small", 6),
   ("mistral-tiny", 5), ("open-mixtral-8x7b", 6),
   ("llama3:70b", 8), ("llama3:8b", 6), ("mixtral:8x7b", 6),
   ("mistral:7b", 5),
   ("mathgpt-v1-pro", 8), ("mathgpt-v1", 7)]

/-- `needle` occurs as a contiguous sublist at the front of `hay`. -/
def listStartsWith [DecidableEq α] : List α → List α → Bool
  | [], _ => true
  | _ :: _, [] => false
  | n :: ns, h :: hs => n = h && listStartsWith ns hs

/-- Python `key in model_name.lower()`: substring test. -/
def strContains (hay needle : String) : Bool :=
  (hay.toList.tails).any (fun t => listStartsWith needle.toList t)

/-- `KnowledgeConsolidator._get_model_tier`: first table entry whose key is
a substring of the lowercased model name; 5 when none matches. -/
def getModelTier (modelName : String) : ℕ :=
  ((modelTiers.find? (fun kv => strContains modelName.toLower kv.1)).map
    (fun kv => kv.2)).getD 5

/-- `KnowledgeConsolidator._extract_statements`
(`knowledge_consolidator.py` lines 268-284): replace newlines by spaces,
split on `"."`, strip, drop empties, keep sentences longer than 15
characters. -/
def extractStatements (text : String) : List String :=
  let sentences := (((text.replace "\n" " ").splitOn ".").map
    String.trim).filter (fun s => s ≠ "")
  sentences.filter (fun s => 15 < s.length)

/-- The clustering test of `_cluster_similar_statements`
(`knowledge_consolidator.py` lines 308-319): word-overlap ratio
`|w1 ∩ w2| / min(|w1|, |w2|) > 0.5` when both word sets are non-empty. -/
def overlapGtHalf (a b : String) : Bool :=
  let w1 := wordSet a
  let w2 := wordSet b
  if 0 < w1.card ∧ 0 < w2.card then
    decide (((w1 ∩ w2).card : ℚ) / (min w1.card w2.card : ℚ) > 1 / 2)
  else false

/-- One pass of the greedy loop of `_cluster_similar_statements`: the head
statement collects every later statement that overlaps with it (the Python
inner loop pops matches out of `unclustered`, which partitions the rest by
overlap with `current`, preserving order).  `fuel` only bounds the
recursion; `clusterSimilarStatements` passes the list length, which the
loop never exhausts since each pass removes at least the head. -/
def clusterAux : ℕ → List String → List (List String)
  | 0, _ => []
  | _, [] => []
  | fuel + 1, current :: rest =>
    let matched := rest.filter (fun s => overlapGtHalf current s)
    let remaining := rest.filter (fun s => !(overlapGtHalf current s))
    (current :: matched) :: clusterAux fuel remaining

/-- `KnowledgeConsolidator._cluster_similar_statements`
(`knowledge_consolidator.py` lines 286-328). -/
def clusterSimilarStatements (statements : List String) : List (List String) :=
  clusterAux statements.length statements

/-- Python `max(cluster, key=len)`: the first element of maximal length. -/
def maxByLen (l : List String) : String :=
  l.foldl (fun acc s => if s.length > acc.length then s else acc) (l.headD "")

/-- Stable insert for a descending sort by weight: the new element goes
after every element of weight ≥ its own.  Folding `insertDesc` from the
left reproduces Python `sorted(..., key=weight, reverse=True)` /
`list.sort(...)`, which are stable. -/
def insertDesc {α : Type} (x : α × ℚ) : List (α × ℚ) → List (α × ℚ)
  | [] => [x]
  | y :: ys => if y.2 < x.2 then x :: y :: ys else y :: insertDesc x ys

/-- Stable descending sort by the `ℚ` component. -/
def sortByWeightDesc {α : Type} (l : List (α × ℚ)) : List (α × ℚ) :=
  l.foldl (fun acc x => insertDesc x acc) []

/-- The transition phrase of `_create_weighted_text`
(`knowledge_consolidator.py` lines 429-434): `Additionally` for the first
appended statement, `Finally` for the last, `Furthermore` in between (a
single appended statement gets `Additionally`, the `i == 0` branch being
checked first). -/
def transitionPhrase (i last : ℕ) : String :=
  if i = 0 then " Additionally, "
  else if i = last then " Finally, "
  else " Furthermore, "

/-- Python `statement` is new information for the base text: no base
statement has word overlap `> 0.7` with it (`knowledge_consolidator.py`
lines 390-404; the overlap is only computed when both word sets are
non-empty). -/
def isNewInfo (baseStatements : List String) (statement : String) : Bool :=
  !(baseStatements.any (fun baseStmt =>
    let w1 := wordSet statement
    let w2 := wordSet baseStmt
    if 0 < w1.card ∧ 0 < w2.card then
      decide (((w1 ∩ w2).card : ℚ) / (min w1.card w2.card : ℚ) > 7 / 10)
    else false))

/-- `KnowledgeConsolidator._create_weighted_text`
(`knowledge_consolidator.py` lines 330-438).  The Python function receives
response dictionaries and weights but reads only `r.get("text", "")`, so it
is embedded over `(text, weight)` pairs. -/
def createWeightedText (pairs : List (String × ℚ)) : String :=
  let sorted := sortByWeightDesc pairs
  match sorted with
  | [] => ""
  | (baseText, _) :: rest =>
    if rest = [] then baseText
    else
      let baseStatements := extractStatements baseText
      let additional := rest.flatMap (fun tw =>
        ((extractStatements tw.1).filter (fun s =>
          20 ≤ s.length ∧ isNewInfo baseStatements s)).map (fun s => (s, tw.2)))
      let additionalSorted := sortByWeightDesc additional
      let maxAdditions := min 3 additionalSorted.length
      if 0 < maxAdditions then
        let start :=
          if baseText ≠ "" ∧ ¬ baseText.endsWith "." then baseText ++ "."
          else baseText
        ((additionalSorted.take maxAdditions).enum).foldl
          (fun acc is =>
            acc ++ transitionPhrase is.1 (maxAdditions - 1) ++ is.2.1)
          start
      else baseText

/-- The per-response weight of `_consolidate_by_weighting`
(`knowledge_consolidator.py` lines 93-102): the confidence score when
present, otherwise the model tier scaled to `[0.1, 1.0]`; floored at
0.1. -/
def weightingWeight (r : Response) : ℚ :=
  let confidence := match r.metadata.confidence with
    | some c => c
    | none => (getModelTier (r.metadata.model.getD "") : ℚ) / 10
  max (1 / 10) confidence

/-- `KnowledgeConsolidator._calculate_agreement_level`
(`knowledge_consolidator.py` lines 440-454). -/
def calcAgreementLevel (responses : List Response) : ℚ :=
  calcTextSimilarity (responses.map (fun r => r.text))

/-- `KnowledgeConsolidator._consolidate_by_weighting`
(`knowledge_consolidator.py` lines 80-127). -/
def consolidateByWeighting (responses : List Response) : ConsolidationResult :=
  let weights := responses.map weightingWeight
  let totalWeight := weights.sum
  let normalized :=
    if 0 < totalWeight then weights.map (fun w => w / totalWeight)
    else responses.map (fun _ => 1 / (responses.length : ℚ))
  let consolidatedText :=
    createWeightedText ((responses.map (fun r => r.text)).zip normalized)
  let avgConfidence :=
    (responses.map (fun r => r.metadata.confidence.getD (1 / 2))).sum /
      (responses.length : ℚ)
  { text := consolidatedText,
    metadata := { confidence := some avgConfidence,
                  weights := some normalized,
                  agreement_level := some (calcAgreementLevel responses) } }

/-- The confidence used by `_consolidate_by_highest_confidence`
(`knowledge_consolidator.py` lines 192-201): the confidence score when
present, otherwise the model tier over 10 (no 0.1 floor here). -/
def highestConfWeight (r : Response) : ℚ :=
  match r.metadata.confidence with
  | some c => c
  | none => (getModelTier (r.metadata.model.getD "") : ℚ) / 10

/-- `KnowledgeConsolidator._consolidate_by_highest_confidence`
(`knowledge_consolidator.py` lines 179-215): stable sort by confidence
descending, return the first.  On `[]` the source would raise IndexError;
every caller passes at least two responses, and the embedding returns a
default there. -/
def consolidateByHighestConfidence (responses : List Response) :
    ConsolidationResult :=
  let scored := responses.map (fun r => (r, highestConfWeight r))
  match sortByWeightDesc scored with
  | [] => { text := "", metadata := {} }
  | (best, conf) :: _ =>
    { text := best.text,
      metadata := { model := best.metadata.model,
                    confidence := best.metadata.confidence,
                    selection_method := some "highest_confidence",
                    selected_confidence := some conf } }

/-- The consensus size threshold of `_consolidate_by_majority_vote`
(`knowledge_consolidator.py` line 151):
`max(2, int(len(responses) * 0.6))` with the default
`min_agreement_threshold = 0.6`.  Python `int` truncates, and the double
product `N * 0.6` truncates to `⌊3N/5⌋` for every list length `N` (for
`5 ∤ N` the real value `3N/5` has fractional part ≥ 0.2, far beyond the
rounding error; for `5 ∣ N` the product rounds to the exact integer
`3N/5`), so the threshold is `max 2 (3 * N / 5)` in natural division. -/
def majorityThreshold (n : ℕ) : ℕ := max 2 (3 * n / 5)

/-- `KnowledgeConsolidator._consolidate_by_majority_vote`
(`knowledge_consolidator.py` lines 129-177), at the default agreement
threshold 0.6. -/
def consolidateByMajorityVote (responses : List Response) :
    ConsolidationResult :=
  let allStatements := responses.flatMap (fun r => extractStatements r.text)
  let statementClusters := clusterSimilarStatements allStatements
  let thresholdCount := majorityThreshold responses.length
  let consensusClusters :=
    statementClusters.filter (fun c => thresholdCount ≤ c.length)
  let consolidatedText :=
    if consensusClusters ≠ [] then
      String.intercalate " " (consensusClusters.map maxByLen)
    else (consolidateByHighestConfidence responses).text
  { text := consolidatedText,
    metadata := { confidence :=
                    some ((thresholdCount : ℚ) / (responses.length : ℚ)),
                  agreement_level :=
                    some ((consensusClusters.length : ℚ) /
                      (max 1 statementClusters.length : ℚ)),
                  threshold_used := some thresholdCount } }

/-- `KnowledgeConsolidator._consolidate_by_ensemble`
(`knowledge_consolidator.py` lines 217-266): run the three strategies,
measure the text similarity of their outputs, and pick the weighted result
(`> 0.8`), a 0.6/0.4 weighted merge of weighted and majority
(`> 0.5`), or the highest-confidence result (otherwise); the branch is
recorded in `ensemble_choice` and the similarity in `methods_agreement`.
The mixed branch reads `metadata["confidence"]` of both sub-results, keys
both constructors always set; `getD 0` is the (dead) default of that
lookup. -/
def consolidateByEnsemble (responses : List Response) : ConsolidationResult :=
  let weightedResponse := consolidateByWeighting responses
  let majorityResponse := consolidateByMajorityVote responses
  let highestConfResponse := consolidateByHighestConfidence responses
  let methodsAgreement := calcTextSimilarity
    [weightedResponse.text, majorityResponse.text, highestConfResponse.text]
  let result :=
    if methodsAgreement > 4 / 5 then
      { weightedResponse with
        metadata := { weightedResponse.metadata with
                      ensemble_choice := some "weighted" } }
    else if methodsAgreement > 1 / 2 then
      let mixedConfidence :=
        3 / 5 * (weightedResponse.metadata.confidence.getD 0) +
          2 / 5 * (majorityResponse.metadata.confidence.getD 0)
      { text := createWeightedText
          [(weightedResponse.text, 3 / 5), (majorityResponse.text, 2 / 5)],
        metadata := { confidence := some mixedConfidence,
                      ensemble_choice := some "weighted_majority_mix" } }
    else
      { highestConfResponse with
        metadata := { highestConfResponse.metadata with
                      ensemble_choice := some "highest_confidence" } }
  { result with
    metadata := { result.metadata with
                  methods_agreement := some methodsAgreement } }

/-- `KnowledgeConsolidator.consolidate_responses`
(`knowledge_consolidator.py` lines 24-78): error dictionary for zero
responses; a single response is returned unchanged with
`consolidation_method = "single_response"` and `source_count = 1` (its
metadata spread into the result); otherwise dispatch on the strategy
string, defaulting to weighting for unknown strategies, then stamp
`source_count`, `consolidation_method` (the caller strategy string) and
`source_models`. -/
def consolidateResponses (responses : List Response) (strategy : String) :
    ConsolidationResult :=
  match responses with
  | [] => { text := "", metadata := { error := some "No responses to consolidate" } }
  | [r] =>
    { text := r.text,
      metadata := { model := r.metadata.model,
                    confidence := r.metadata.confidence,
                    consolidation_method := some "single_response",
                    source_count := some 1 } }
  | _ =>
    let result :=
      if strategy = "weight_by_confidence" then consolidateByWeighting responses
      else if strategy = "majority_vote" then consolidateByMajorityVote responses
      else if strategy = "highest_confidence" then
        consolidateByHighestConfidence responses
      else if strategy = "ensemble" then consolidateByEnsemble responses
      else consolidateByWeighting responses
    { result with
      metadata := { result.metadata with
        source_count := some responses.length,
        consolidation_method := some strategy,
        source_models := some (responses.map
          (fun r => r.metadata.model.getD "unknown")) } }

/-! ## ResponseEvaluator -/

/-- The dataclass `EvaluationMetrics` (`response_evaluator.py` lines
8-20). -/
structure EvaluationMetrics where
  relevance_score : ℚ
  coherence_score : ℚ
  completeness_score : ℚ
  factuality_score : ℚ
  hallucination_risk : ℚ
  creativity_score : Option ℚ := none
  instruction_following : Option ℚ := none
  deriving Repr, DecidableEq

/-- The `overall_score` property (`response_evaluator.py` lines 22-45):
weighted sum of the four required scores (0.30, 0.25, 0.20, 0.25), with
creativity (0.15) and instruction following (0.20) added to both the sum
and the divisor exactly when present. -/
def EvaluationMetrics.overallScore (m : EvaluationMetrics) : ℚ :=
  let base := m.relevance_score * (3 / 10) + m.coherence_score * (1 / 4) +
    m.completeness_score * (1 / 5) + m.factuality_score * (1 / 4)
  let afterCreativity : ℚ × ℚ := match m.creativity_score with
    | some c => (base + c * (3 / 20), 1 + 3 / 20)
    | none => (base, 1)
  let afterInstruction : ℚ × ℚ := match m.instruction_following with
    | some f => (afterCreativity.1 + f * (1 / 5), afterCreativity.2 + 1 / 5)
    | none => afterCreativity
  afterInstruction.1 / afterInstruction.2

/-- `ResponseEvaluator._get_quality_category` (`response_evaluator.py`
lines 698-709) with the default thresholds (lines 93-98). -/
def getQualityCategory (score : ℚ) : String :=
  if score ≥ 17 / 20 then "excellent"
  else if score ≥ 7 / 10 then "good"
  else if score ≥ 3 / 5 then "acceptable"
  else if score ≥ 2 / 5 then "poor"
  else "very_poor"

/-- The result dictionary of `evaluate_response`.  `Option`-valued fields
are keys only some return branches include (the empty-text branch returns
no `overall_score`, `suggestions` or `response_length` and sets
`error`). -/
structure EvalResult where
  metrics : EvaluationMetrics
  overall_score : Option ℚ := none
  feedback : String
  suggestions : Option (List String) := none
  quality_category : String
  response_length : Option ℕ := none
  error : Option String := none
  deriving Repr, DecidableEq

/-- The per-metric computation methods of `ResponseEvaluator` that
`evaluate_response` invokes inside its per-metric `try/except` blocks
(`response_evaluator.py` lines 143-212).  Each is embedded as a function
into `Except String` so that a raised exception is `Except.error`; the
claims about `evaluate_response` quantify over this suite, mirroring
`self` carrying the methods. -/
structure MetricFns where
  calcRelevance : String → String → Except String ℚ
  calcCoherence : String → Except String ℚ
  calcCompleteness : String → String → Except String ℚ
  evalFactuality : String → Option (List String) → Except String (ℚ × ℚ)
  calcCreativity : String → Except String ℚ
  evalInstructionFollowing : String → String → Except String ℚ
  generateFeedback : EvaluationMetrics → String → Except String (String × List String)

/-- The fixed result of the empty-response-text branch of
`evaluate_response` (`response_evaluator.py` lines 128-141). -/
def emptyTextEvalResult : EvalResult :=
  { metrics := { relevance_score := 0, coherence_score := 0,
                 completeness_score := 0, factuality_score := 0,
                 hallucination_risk := 1 },
    feedback := "Empty response",
    quality_category := "poor",
    error := some "empty_response" }

/-- `ResponseEvaluator.evaluate_response` (`response_evaluator.py` lines
100-239).  Control flow translated branch for branch: empty response text
short-circuits; each required metric is computed in its own `try/except`
with neutral fallback 0.5 (factuality falls back to the pair
`(0.5, 0.5)`); creativity is computed only for creative tasks and left
absent (`None`) on failure; instruction following is computed only for a
truthy (non-empty) instructions string and left absent on failure;
feedback generation falls back to fixed strings.  The outer `try/except`
(lines 223-239) is unreachable in this embedding since every step above is
total.  The `if not prompt: prompt = ""` normalisation is the identity
here because the only falsy `str` is already `""`. -/
def evaluateResponse (fns : MetricFns) (prompt : String) (response : Response)
    (referenceTexts : Option (List String)) (isCreativeTask : Bool)
    (instructions : Option String) : EvalResult :=
  let responseText := response.text
  if responseText = "" then emptyTextEvalResult
  else
    let relevanceScore := match fns.calcRelevance prompt responseText with
      | .ok v => v
      | .error _ => 1 / 2
    let coherenceScore := match fns.calcCoherence responseText with
      | .ok v => v
      | .error _ => 1 / 2
    let completenessScore := match fns.calcCompleteness prompt responseText with
      | .ok v => v
      | .error _ => 1 / 2
    let factualityPair := match fns.evalFactuality responseText referenceTexts with
      | .ok p => p
      | .error _ => (1 / 2, 1 / 2)
    let creativityScore :=
      if isCreativeTask then
        match fns.calcCreativity responseText with
        | .ok v => some v
        | .error _ => none
      else none
    let instructionFollowing :=
      match instructions with
      | some instr =>
        if instr = "" then none
        else
          match fns.evalInstructionFollowing instr responseText with
          | .ok v => some v
          | .error _ => none
      | none => none
    let metrics : EvaluationMetrics :=
      { relevance_score := relevanceScore,
        coherence_score := coherenceScore,
        completeness_score := completenessScore,
        factuality_score := factualityPair.1,
        hallucination_risk := factualityPair.2,
        creativity_score := creativityScore,
        instruction_following := instructionFollowing }
    let qualityCategory := getQualityCategory metrics.overallScore
    let feedbackPair := match fns.generateFeedback metrics responseText with
      | .ok p => p
      | .error _ =>
        ("Unable to generate specific feedback.",
         ["Consider improving the response."])
    { metrics := metrics,
      overall_score := some metrics.overallScore,
      feedback := feedbackPair.1,
      suggestions := some feedbackPair.2,
      quality_category := qualityCategory,
      response_length := some (pyWords responseText).length }

/-! ## Cross-validation (`cross_validate_responses`) -/

/-- The `self._calculate_text_similarity(...)` call sites inside
`ResponseEvaluator.cross_validate_responses` (`response_evaluator.py`
lines 275 and 346).  The class `ResponseEvaluator` defines no method or
attribute named `_calculate_text_similarity` (the helper of that name
lives on `KnowledgeConsolidator`, `knowledge_consolidator.py` line 456,
and `ResponseEvaluator` has no base class), so in Python the attribute
lookup raises `AttributeError` whenever this call is reached. -/
def attributeErrorMsg : String :=
  "AttributeError: ResponseEvaluator object has no attribute _calculate_text_similarity"

/-- The raising call, see the comment above. -/
def evaluatorTextSimilarity (_texts : List String) : Except String ℚ :=
  Except.error attributeErrorMsg

/-- Map over `Except`, the semantics of a Python `for` loop whose body may
raise: the first raised exception aborts the whole loop. -/
def exceptMapList {ε α β : Type} (f : α → Except ε β) :
    List α → Except ε (List β)
  | [] => Except.ok []
  | x :: xs =>
    match f x with
    | Except.error e => Except.error e
    | Except.ok y =>
      match exceptMapList f xs with
      | Except.error e => Except.error e
      | Except.ok ys => Except.ok (y :: ys)

/-- The successful result shape of `cross_validate_responses`
(`response_evaluator.py` lines 364-372), without the optional factual
validation (never reached before the raise, see
`crossValidateResponses`). -/
structure CrossValidationOk where
  overall_consensus : ℚ
  agreement_matrix : List (List ℚ)
  average_agreements : List ℚ
  consensus_response_indices : List ℕ
  outlier_response_indices : List ℕ
  validation_method : String
  deriving Repr, DecidableEq

/-- A call to `cross_validate_responses` either returns a dictionary (an
error dictionary for fewer than two responses, or the result record) or
raises. -/
inductive CrossValidationOut where
  | errorDict (msg : String)
  | result (r : CrossValidationOk)
  deriving Repr, DecidableEq

/-- `ResponseEvaluator.cross_validate_responses` (`response_evaluator.py`
lines 241-372): for fewer than two responses, return the error
dictionary; otherwise build the pairwise agreement matrix with `1.0` on
the diagonal and `self._calculate_text_similarity(...)` off it — a call
that raises `AttributeError` (see `evaluatorTextSimilarity`), so
everything from the average-agreement computation on (lines 281-372,
including the `factual_check` branch) is dead code, elided after the
propagated error. -/
def crossValidateResponses (responses : List Response)
    (validationMethod : String) : Except String CrossValidationOut :=
  if responses.length < 2 then
    Except.ok (CrossValidationOut.errorDict
      "Need at least two responses to cross-validate")
  else
    let responseTexts := responses.map (fun r => r.text)
    let n := responses.length
    match exceptMapList (fun i =>
      exceptMapList (fun j =>
        if i = j then Except.ok (1 : ℚ)
        else evaluatorTextSimilarity
          [responseTexts.getD i "", responseTexts.getD j ""])
        (List.range n))
      (List.range n) with
    | Except.error e => Except.error e
    | Except.ok agreementMatrix =>
      let avgAgreements := (List.range n).map (fun i =>
        let agreements := ((List.range n).filter (fun j => i ≠ j)).map
          (fun j => (agreementMatrix.getD i []).getD j 0)
        if agreements.length ≠ 0 then agreements.sum / (agreements.length : ℚ)
        else 0)
      let consensusIndices := (List.range n).filter
        (fun i => avgAgreements.getD i 0 ≥ 3 / 5)
      let outlierIndices := (List.range n).filter
        (fun i => avgAgreements.getD i 0 < 2 / 5)
      let overallConsensus :=
        if avgAgreements.length ≠ 0 then
          avgAgreements.sum / (avgAgreements.length : ℚ)
        else 0
      Except.ok (CrossValidationOut.result
        { overall_consensus := overallConsensus,
          agreement_matrix := agreementMatrix,
          average_agreements := avgAgreements,
          consensus_response_indices := consensusIndices,
          outlier_response_indices := outlierIndices,
          validation_method := validationMethod })

/-! ## Backend selection (`AIOrchestrator._select_provider_and_model`) -/

/-- A provider configuration object, reduced to the single method the
selector calls on it. -/
structure ProviderConfig where
  getRecommendedModels : String → List String

/-- The orchestrator state the selector reads: `self.adapters` (registered
provider names, dictionary insertion order), `self.configs` (association
of provider name to configuration), and the model identifiers
`adapter.get_available_models()` reports per provider (the selector reads
`models[0]["id"]` / `m.get("id", "")`). -/
structure Orchestrator where
  adapters : List String
  configs : List (String × ProviderConfig)
  availableModels : String → List String

/-- `provider in self.configs` / `self.configs[provider]`. -/
def Orchestrator.configFor (o : Orchestrator) (p : String) :
    Option ProviderConfig :=
  (o.configs.find? (fun kv => kv.1 = p)).map (fun kv => kv.2)

/-- `DefaultConfig.get_recommended_models` (`ai_orchestrator.py` lines
40-56): fixed task → model-list table with `["gpt-3.5-turbo"]` as the
unknown-task default. -/
def defaultRecommendedModels (taskType : String) : List String :=
  (([("general_chat", ["gpt-3.5-turbo"]),
     ("creative_writing", ["claude-3-sonnet-20240229"]),
     ("code", ["gpt-4-0125-preview"]),
     ("math", ["mathgpt-default"]),
     ("analysis", ["claude-3-opus-20240229"])].find?
      (fun kv => kv.1 = taskType)).map (fun kv => kv.2)).getD
    ["gpt-3.5-turbo"]

/-- The `task_provider_mapping` of `_select_provider_and_model`
(`ai_orchestrator.py` lines 569-574). -/
def taskProviderMapping : List (String × String) :=
  [("math", "mathgpt"), ("complex_reasoning", "anthropic"),
   ("analysis", "anthropic"), ("code", "openai")]

/-- `AIOrchestrator._select_provider_and_model` (`ai_orchestrator.py`
lines 496-620), as the first-match chain of its early returns:
1. explicit provider and model, provider registered;
2. explicit registered provider: its config recommendation for the task,
   else the default-config recommendation, else its first available model;
3. explicit model: the first registered provider advertising it;
4. the task → preferred-provider table, when that provider is registered,
   has a config, and a non-empty recommendation;
5. the fixed priority list, first registered provider with a config and a
   non-empty recommendation;
6. the first registered provider and its first available model;
7. `(None, None)` when nothing matches or nothing is registered.
The `try/except` blocks inside only guard adapter/config calls, which are
pure lookups in this embedding. -/
def selectProviderAndModel (o : Orchestrator) (taskType : String)
    (modelName : Option String) (provider : Option String) :
    Option String × Option String :=
  if o.adapters = [] then (none, none)
  else
    let rule1 : Option (String × String) :=
      match provider, modelName with
      | some p, some m => if o.adapters.contains p then some (p, m) else none
      | _, _ => none
    let rule2 : Option (String × String) :=
      match provider with
      | some p =>
        if o.adapters.contains p then
          let fromConfig := match o.configFor p with
            | some cfg =>
              match cfg.getRecommendedModels taskType with
              | [] => none
              | m :: _ => some (p, m)
            | none => none
          let fromDefault := match defaultRecommendedModels taskType with
            | [] => none
            | m :: _ => some (p, m)
          let fromAvailable := match o.availableModels p with
            | [] => none
            | m :: _ => some (p, m)
          fromConfig <|> fromDefault <|> fromAvailable
        else none
      | none => none
    let rule3 : Option (String × String) :=
      match modelName with
      | some m =>
        ((o.adapters.filter (fun prov =>
            (o.availableModels prov).contains m)).head?).map
          (fun prov => (prov, m))
      | none => none
    let rule4 : Option (String × String) :=
      match (taskProviderMapping.find? (fun kv => kv.1 = taskType)).map
          (fun kv => kv.2) with
      | some recommendedProvider =>
        if o.adapters.contains recommendedProvider then
          match o.configFor recommendedProvider with
          | some cfg =>
            match cfg.getRecommendedModels taskType with
            | [] => none
            | m :: _ => some (recommendedProvider, m)
          | none => none
        else none
      | none => none
    let rule5 : Option (String × String) :=
      (["ollama", "openai", "anthropic", "mistral", "mathgpt"].filterMap
        (fun prov =>
          if o.adapters.contains prov then
            match o.configFor prov with
            | some cfg =>
              match cfg.getRecommendedModels taskType with
              | [] => none
              | m :: _ => some (prov, m)
            | none => none
          else none)).head?
    let rule6 : Option (String × String) :=
      match o.adapters with
      | [] => none
      | firstProvider :: _ =>
        match o.availableModels firstProvider with
        | [] => none
        | m :: _ => some (firstProvider, m)
    match rule1 <|> rule2 <|> rule3 <|> rule4 <|> rule5 <|> rule6 with
    | some pm => (some pm.1, some pm.2)
    | none => (none, none)

/-- `OllamaConfig.task_model_mappings` (`ollama_config.py` lines
40-46). -/
def ollamaTaskModelMappings : List (String × List String) :=
  [("code_generation", ["codellama:13b", "codegemma:7b", "wizardcoder:13b"]),
   ("general_chat", ["mistral:7b", "llama3:8b", "gemma:7b"]),
   ("multilingual", ["nous-hermes:7b", "aya:8b", "dolphin-mixtral:8x7b"]),
   ("reasoning", ["mixtral:8x7b", "llama3:70b", "wizard:13b"]),
   ("lightweight", ["phi3:mini", "tinyllama:1.1b", "qwen:0.5b"])]

/-- `OllamaConfig.model_categories["general"]` (`ollama_config.py` lines
20-26), the unknown-task fallback of `get_recommended_models`. -/
def ollamaGeneralModels : List String :=
  ["llama3:8b", "llama3:70b", "mistral:7b", "mixtral:8x7b", "gemma:7b"]

/-- `OllamaConfig.get_recommended_models` (`ollama_config.py` lines
62-65). -/
def ollamaGetRecommendedModels (task : String) : List String :=
  ((ollamaTaskModelMappings.find? (fun kv => kv.1 = task)).map
    (fun kv => kv.2)).getD ollamaGeneralModels

/-- The `OllamaConfig` object as the selector consumes it. -/
def ollamaConfig : ProviderConfig :=
  { getRecommendedModels := ollamaGetRecommendedModels }

/-- An orchestrator whose registry contains only `"ollama"` (the scenario
of §8 of the spec; `AIOrchestrator(providers=["ollama"])`). -/
def ollamaOnlyOrchestrator : Orchestrator :=
  { adapters := ["ollama"],
    configs := [("ollama", ollamaConfig)],
    availableModels := fun _ => [] }

/-- An orchestrator with an empty registry (every adapter failed to
initialise). -/
def emptyOrchestrator : Orchestrator :=
  { adapters := [], configs := [], availableModels := fun _ => [] }

/-! ## Multi-provider dispatch
(`AIOrchestrator.generate_multi_provider_response`, `ai_orchestrator.py`
lines 300-327).

The loop `for provider in providers_to_use:` skips unregistered
providers, performs one synchronous `self.generate_response(...)` call
per registered provider — the call returns (or raises) before the next
iteration starts; there is no thread, task or await in the function — and
appends the formatted response, swallowing per-provider exceptions with
`try/except`.  `gen` abstracts one backend round trip (`Except.error` = a
raised exception), `cost` its wall-clock duration. -/

/-- The responses collected by the dispatch loop, in iteration order;
failed calls are logged and skipped. -/
def dispatchResponses (registered : String → Bool)
    (gen : String → Except String Response) :
    List String → List Response
  | [] => []
  | p :: rest =>
    if registered p then
      match gen p with
      | Except.ok r => r :: dispatchResponses registered gen rest
      | Except.error _ => dispatchResponses registered gen rest
    else dispatchResponses registered gen rest

/-- The wall-clock duration of the dispatch loop: each performed call
completes before the next begins, so the durations add up. -/
def dispatchElapsed (registered : String → Bool) (cost : String → ℕ) :
    List String → ℕ
  | [] => 0
  | p :: rest =>
    (if registered p then cost p else 0) +
      dispatchElapsed registered cost rest

/-- The duration of the slowest performed call — the bound concurrent
dispatch would give. -/
def dispatchSlowest (registered : String → Bool) (cost : String → ℕ)
    (providers : List String) : ℕ :=
  ((providers.filter registered).map cost).foldr max 0

/-! ## Theorems -/

/-- Every pairwise Jaccard score the similarity helper averages lies in
`[0, 1]`. -/
theorem mem_sims_bounds (wordSets : List (Finset String)) (x : ℚ)
    (hx : x ∈ (allPairs wordSets).filterMap (fun p =>
      if p.1 = ∅ ∨ p.2 = ∅ then none
      else if 0 < (p.1 ∪ p.2).card then
        some (((p.1 ∩ p.2).card : ℚ) / ((p.1 ∪ p.2).card : ℚ))
      else none)) : 0 ≤ x ∧ x ≤ 1 := by
  obtain ⟨p, -, hp⟩ := List.mem_filterMap.mp hx
  by_cases h1 : p.1 = ∅ ∨ p.2 = ∅
  · simp [h1] at hp
  · rw [if_neg h1] at hp
    by_cases h2 : 0 < (p.1 ∪ p.2).card
    · rw [if_pos h2] at hp
      obtain rfl : ((p.1 ∩ p.2).card : ℚ) / ((p.1 ∪ p.2).card : ℚ) = x :=
        Option.some.inj hp
      constructor
      · exact div_nonneg (by positivity) (by positivity)
      · rw [div_le_one (by exact_mod_cast h2)]
        exact_mod_cast Finset.card_le_card Finset.inter_subset_union
    · rw [if_neg h2] at hp
      exact absurd hp (by simp)

/-- `_calculate_text_similarity` always returns a value in `[0, 1]` — the
similarity the ensemble branches on and the value the cross-validation
matrix was meant to hold off the diagonal. -/
theorem calcTextSimilarity_mem_unit (texts : List String) :
    0 ≤ calcTextSimilarity texts ∧ calcTextSimilarity texts ≤ 1 := by
  unfold calcTextSimilarity
  by_cases hlen : texts.length ≤ 1
  · simp [hlen]
  · rw [if_neg hlen]
    have hbounds := mem_sims_bounds (texts.map wordSet)
    set sims := (allPairs (texts.map wordSet)).filterMap (fun p =>
      if p.1 = ∅ ∨ p.2 = ∅ then none
      else if 0 < (p.1 ∪ p.2).card then
        some (((p.1 ∩ p.2).card : ℚ) / ((p.1 ∪ p.2).card : ℚ))
      else none) with hsims
    have hsum0 : 0 ≤ sims.sum :=
      List.sum_nonneg (fun x hx => (hbounds x hx).1)
    have hsumle : sims.sum ≤ (sims.length : ℚ) := by
      calc sims.sum ≤ sims.length • (1 : ℚ) :=
            List.sum_le_card_nsmul sims 1 (fun x hx => (hbounds x hx).2)
        _ = (sims.length : ℚ) := by simp
    have hden : (0 : ℚ) < max 1 (sims.length : ℚ) :=
      lt_of_lt_of_le zero_lt_one (le_max_left _ _)
    constructor
    · exact div_nonneg hsum0 hden.le
    · rw [div_le_one hden]
      exact le_trans hsumle (le_max_right _ _)

/-- The pairwise similarity is symmetric in its two texts — the fact that
would make the intended agreement matrix symmetric. -/
theorem calcTextSimilarity_pair_comm (a b : String) :
    calcTextSimilarity [a, b] = calcTextSimilarity [b, a] := by
  by_cases ha : wordSet a = ∅ <;> by_cases hb : wordSet b = ∅ <;>
    simp [calcTextSimilarity, allPairs, List.filterMap, ha, hb,
      Finset.inter_comm, Finset.union_comm]

/-- C3: for every `EvaluationMetrics` record whose component scores lie in
`[0,1]`, `overall_score` is the fixed weighted sum — relevance×0.30 +
coherence×0.25 + completeness×0.20 + factuality×0.25, plus
creativity×0.15 and instruction-following×0.20 exactly when present —
divided by 1.0 increased by 0.15 and/or 0.20 exactly when those optional
metrics are present, and it always lies in `[0,1]`. -/
theorem overall_score_formula_and_bounds (m : EvaluationMetrics)
    (hr0 : 0 ≤ m.relevance_score) (hr1 : m.relevance_score ≤ 1)
    (hc0 : 0 ≤ m.coherence_score) (hc1 : m.coherence_score ≤ 1)
    (hp0 : 0 ≤ m.completeness_score) (hp1 : m.completeness_score ≤ 1)
    (hf0 : 0 ≤ m.factuality_score) (hf1 : m.factuality_score ≤ 1)
    (hcr : ∀ c, m.creativity_score = some c → 0 ≤ c ∧ c ≤ 1)
    (hif : ∀ f, m.instruction_following = some f → 0 ≤ f ∧ f ≤ 1) :
    m.overallScore =
      (m.relevance_score * (3 / 10) + m.coherence_score * (1 / 4) +
        m.completeness_score * (1 / 5) + m.factuality_score * (1 / 4) +
        m.creativity_score.getD 0 * (3 / 20) +
        m.instruction_following.getD 0 * (1 / 5)) /
      (1 + (if m.creativity_score.isSome then (3 : ℚ) / 20 else 0) +
        (if m.instruction_following.isSome then (1 : ℚ) / 5 else 0)) ∧
    0 ≤ m.overallScore ∧ m.overallScore ≤ 1 := by
  obtain ⟨r, c, p, f, hh, cr, fo⟩ := m
  rcases cr with _ | cv <;> rcases fo with _ | fv <;>
    simp_all only [EvaluationMetrics.overallScore, Option.getD_some,
      Option.getD_none, Option.isSome_some, Option.isSome_none,
      Option.some.injEq, forall_eq, forall_eq', if_true, if_false,
      Bool.false_eq_true, ite_true, ite_false]
  · refine ⟨by ring_nf, ?_, ?_⟩
    · have : (0 : ℚ) ≤ r * (3 / 10) + c * (1 / 4) + p * (1 / 5) +
          f * (1 / 4) := by nlinarith
      simpa using this
    · have : r * (3 / 10) + c * (1 / 4) + p * (1 / 5) + f * (1 / 4) ≤ 1 := by
        nlinarith
      rw [div_le_one (by norm_num)]
      linarith
  · obtain ⟨hf2, hf3⟩ := hif
    refine ⟨by ring_nf, ?_, ?_⟩
    · exact div_nonneg (by nlinarith) (by norm_num)
    · rw [div_le_one (by norm_num)]
      nlinarith
  · obtain ⟨hc2, hc3⟩ := hcr
    refine ⟨by ring_nf, ?_, ?_⟩
    · exact div_nonneg (by nlinarith) (by norm_num)
    · rw [div_le_one (by norm_num)]
      nlinarith
  · obtain ⟨hc2, hc3⟩ := hcr
    obtain ⟨hf2, hf3⟩ := hif
    refine ⟨by ring_nf, ?_, ?_⟩
    · exact div_nonneg (by nlinarith) (by norm_num)
    · rw [div_le_one (by norm_num)]
      nlinarith

/-- A sample metrics record with both optional metrics present. -/
def sampleMetrics : EvaluationMetrics :=
  { relevance_score := 1 / 2, coherence_score := 3 / 4,
    completeness_score := 1, factuality_score := 0,
    hallucination_risk := 1 / 4, creativity_score := some (1 / 2),
    instruction_following := some 1 }

/-- Witness for C3 at `sampleMetrics`. -/
theorem overall_score_formula_and_bounds_witness :
    sampleMetrics.overallScore =
      (sampleMetrics.relevance_score * (3 / 10) +
        sampleMetrics.coherence_score * (1 / 4) +
        sampleMetrics.completeness_score * (1 / 5) +
        sampleMetrics.factuality_score * (1 / 4) +
        sampleMetrics.creativity_score.getD 0 * (3 / 20) +
        sampleMetrics.instruction_following.getD 0 * (1 / 5)) /
      (1 + (if sampleMetrics.creativity_score.isSome then (3 : ℚ) / 20 else 0) +
        (if sampleMetrics.instruction_following.isSome then (1 : ℚ) / 5 else 0)) ∧
    0 ≤ sampleMetrics.overallScore ∧ sampleMetrics.overallScore ≤ 1 :=
  overall_score_formula_and_bounds sampleMetrics (by norm_num [sampleMetrics])
    (by norm_num [sampleMetrics]) (by norm_num [sampleMetrics])
    (by norm_num [sampleMetrics]) (by norm_num [sampleMetrics])
    (by norm_num [sampleMetrics]) (by norm_num [sampleMetrics])
    (by norm_num [sampleMetrics])
    (fun c hc => by
      have hcv : c = 1 / 2 := by
        have h2 : some ((1 : ℚ) / 2) = some c := hc
        exact (Option.some.inj h2).symm
      subst hcv
      exact ⟨by norm_num, by norm_num⟩)
    (fun f hf => by
      have hfv : f = 1 := by
        have h2 : some (1 : ℚ) = some f := hf
        exact (Option.some.inj h2).symm
      subst hfv
      exact ⟨by norm_num, by norm_num⟩)

/-- C4: a single-element response list is returned unchanged by
`consolidate_responses`, for every strategy string, with
`source_count = 1` and `consolidation_method = "single_response"` (and the
input metadata spread into the result). -/
theorem consolidate_single_response (r : Response) (strategy : String) :
    consolidateResponses [r] strategy =
      { text := r.text,
        metadata := { model := r.metadata.model,
                      confidence := r.metadata.confidence,
                      consolidation_method := some "single_response",
                      source_count := some 1 } } := rfl

/-- C5: an empty response text short-circuits `evaluate_response` to the
fixed all-zero metrics with hallucination risk 1.0 and category `"poor"`,
whatever the metric-method suite, prompt, reference texts, creative-task
flag and instructions are. -/
theorem evaluate_empty_text_short_circuit (fns : MetricFns) (prompt : String)
    (response : Response) (referenceTexts : Option (List String))
    (isCreativeTask : Bool) (instructions : Option String)
    (h : response.text = "") :
    evaluateResponse fns prompt response referenceTexts isCreativeTask
        instructions = emptyTextEvalResult ∧
      emptyTextEvalResult.metrics.relevance_score = 0 ∧
      emptyTextEvalResult.metrics.coherence_score = 0 ∧
      emptyTextEvalResult.metrics.completeness_score = 0 ∧
      emptyTextEvalResult.metrics.factuality_score = 0 ∧
      emptyTextEvalResult.metrics.hallucination_risk = 1 ∧
      emptyTextEvalResult.quality_category = "poor" := by
  refine ⟨?_, rfl, rfl, rfl, rfl, rfl, rfl⟩
  simp [evaluateResponse, h]

/-- A metric-method suite whose computations all succeed with fixed
values, for witnesses. -/
def constMetricFns : MetricFns :=
  { calcRelevance := fun _ _ => Except.ok (7 / 10),
    calcCoherence := fun _ => Except.ok (3 / 5),
    calcCompleteness := fun _ _ => Except.ok (7 / 10),
    evalFactuality := fun _ _ => Except.ok (4 / 5, 1 / 10),
    calcCreativity := fun _ => Except.ok (1 / 2),
    evalInstructionFollowing := fun _ _ => Except.ok (3 / 4),
    generateFeedback := fun _ _ => Except.ok ("fine", []) }

/-- Witness for C5 at a concrete empty-text response. -/
theorem evaluate_empty_text_short_circuit_witness :
    ({ text := "", metadata := {} } : Response).text = "" ∧
      evaluateResponse constMetricFns "What is AI?"
          { text := "", metadata := {} } none true (some "be brief") =
        emptyTextEvalResult :=
  ⟨rfl,
    (evaluate_empty_text_short_circuit constMetricFns "What is AI?"
      { text := "", metadata := {} } none true (some "be brief") rfl).1⟩

/-- A metric-method suite whose optional-metric computations raise while
everything else succeeds. -/
def failingOptionalMetricFns : MetricFns :=
  { constMetricFns with
    calcCreativity := fun _ => Except.error "boom",
    evalInstructionFollowing := fun _ _ => Except.error "boom" }

/-- C6, counterexample: the claim says a failing creativity computation is
substituted with the neutral 0.5; in the source (`response_evaluator.py`
lines 172-179) the `except` branch leaves `creativity_score = None`
instead, so at this concrete input the resulting creativity score is
absent, not 0.5. -/
theorem metric_failure_claim_counterexample :
    (evaluateResponse failingOptionalMetricFns "What is AI?"
        { text := "AI is the study of intelligent agents", metadata := {} }
        none true none).metrics.creativity_score = none ∧
      (evaluateResponse failingOptionalMetricFns "What is AI?"
        { text := "AI is the study of intelligent agents", metadata := {} }
        none true none).metrics.creativity_score ≠ some (1 / 2) := by
  have h1 : (evaluateResponse failingOptionalMetricFns "What is AI?"
      { text := "AI is the study of intelligent agents", metadata := {} }
      none true none).metrics.creativity_score = none := rfl
  exact ⟨h1, by rw [h1]; exact fun h => Option.noConfusion h⟩

/-- C6, amended: a failing metric computation never aborts
`evaluate_response`; the four required metrics are individually replaced by
the neutral 0.5 (factuality failure yields the neutral pair (0.5, 0.5)),
while a failing optional metric (creativity, instruction following) is
left absent rather than set to 0.5, and the overall result is still
produced from the remaining metrics. -/
theorem metric_failure_isolation (fns : MetricFns) (prompt : String)
    (response : Response) (referenceTexts : Option (List String))
    (isCreativeTask : Bool) (instructions : Option String)
    (htext : ¬ response.text = "") :
    (evaluateResponse fns prompt response referenceTexts isCreativeTask
        instructions).error = none ∧
      (evaluateResponse fns prompt response referenceTexts isCreativeTask
          instructions).overall_score =
        some (evaluateResponse fns prompt response referenceTexts
          isCreativeTask instructions).metrics.overallScore ∧
      (∀ e, fns.calcRelevance prompt response.text = Except.error e →
        (evaluateResponse fns prompt response referenceTexts isCreativeTask
          instructions).metrics.relevance_score = 1 / 2) ∧
      (∀ e, fns.calcCoherence response.text = Except.error e →
        (evaluateResponse fns prompt response referenceTexts isCreativeTask
          instructions).metrics.coherence_score = 1 / 2) ∧
      (∀ e, fns.calcCompleteness prompt response.text = Except.error e →
        (evaluateResponse fns prompt response referenceTexts isCreativeTask
          instructions).metrics.completeness_score = 1 / 2) ∧
      (∀ e, fns.evalFactuality response.text referenceTexts = Except.error e →
        (evaluateResponse fns prompt response referenceTexts isCreativeTask
            instructions).metrics.factuality_score = 1 / 2 ∧
          (evaluateResponse fns prompt response referenceTexts isCreativeTask
            instructions).metrics.hallucination_risk = 1 / 2) ∧
      (isCreativeTask = true →
        ∀ e, fns.calcCreativity response.text = Except.error e →
        (evaluateResponse fns prompt response referenceTexts isCreativeTask
          instructions).metrics.creativity_score = none) ∧
      (∀ instr, instructions = some instr → ¬ instr = "" →
        ∀ e, fns.evalInstructionFollowing instr response.text = Except.error e →
        (evaluateResponse fns prompt response referenceTexts isCreativeTask
          instructions).metrics.instruction_following = none) := by
  simp only [evaluateResponse, if_neg htext]
  refine ⟨trivial, trivial, ?_, ?_, ?_, ?_, ?_, ?_⟩
  · intro e he
    simp [he]
  · intro e he
    simp [he]
  · intro e he
    simp [he]
  · intro e he
    simp [he]
  · intro hc e he
    subst hc
    simp [he]
  · intro instr hinstr hne e he
    subst hinstr
    simp [hne, he]

/-- Witness for the amended C6 at a concrete input whose
creativity and instruction-following computations raise. -/
theorem metric_failure_isolation_witness :
    (evaluateResponse failingOptionalMetricFns "What is AI?"
        { text := "AI is the study of intelligent agents", metadata := {} }
        none true (some "be brief")).error = none ∧
      (evaluateResponse failingOptionalMetricFns "What is AI?"
          { text := "AI is the study of intelligent agents", metadata := {} }
          none true (some "be brief")).overall_score =
        some (evaluateResponse failingOptionalMetricFns "What is AI?"
          { text := "AI is the study of intelligent agents", metadata := {} }
          none true (some "be brief")).metrics.overallScore ∧
      (∀ e, failingOptionalMetricFns.calcRelevance "What is AI?"
          ({ text := "AI is the study of intelligent agents",
             metadata := {} } : Response).text = Except.error e →
        (evaluateResponse failingOptionalMetricFns "What is AI?"
          { text := "AI is the study of intelligent agents", metadata := {} }
          none true (some "be brief")).metrics.relevance_score = 1 / 2) ∧
      (∀ e, failingOptionalMetricFns.calcCoherence
          ({ text := "AI is the study of intelligent agents",
             metadata := {} } : Response).text = Except.error e →
        (evaluateResponse failingOptionalMetricFns "What is AI?"
          { text := "AI is the study of intelligent agents", metadata := {} }
          none true (some "be brief")).metrics.coherence_score = 1 / 2) ∧
      (∀ e, failingOptionalMetricFns.calcCompleteness "What is AI?"
          ({ text := "AI is the study of intelligent agents",
             metadata := {} } : Response).text = Except.error e →
        (evaluateResponse failingOptionalMetricFns "What is AI?"
          { text := "AI is the study of intelligent agents", metadata := {} }
          none true (some "be brief")).metrics.completeness_score = 1 / 2) ∧
      (∀ e, failingOptionalMetricFns.evalFactuality
          ({ text := "AI is the study of intelligent agents",
             metadata := {} } : Response).text none = Except.error e →
        (evaluateResponse failingOptionalMetricFns "What is AI?"
            { text := "AI is the study of intelligent agents", metadata := {} }
            none true (some "be brief")).metrics.factuality_score = 1 / 2 ∧
          (evaluateResponse failingOptionalMetricFns "What is AI?"
            { text := "AI is the study of intelligent agents", metadata := {} }
            none true (some "be brief")).metrics.hallucination_risk = 1 / 2) ∧
      (true = true →
        ∀ e, failingOptionalMetricFns.calcCreativity
          ({ text := "AI is the study of intelligent agents",
             metadata := {} } : Response).text = Except.error e →
        (evaluateResponse failingOptionalMetricFns "What is AI?"
          { text := "AI is the study of intelligent agents", metadata := {} }
          none true (some "be brief")).metrics.creativity_score = none) ∧
      (∀ instr, (some "be brief" : Option String) = some instr →
        ¬ instr = "" →
        ∀ e, failingOptionalMetricFns.evalInstructionFollowing instr
          ({ text := "AI is the study of intelligent agents",
             metadata := {} } : Response).text = Except.error e →
        (evaluateResponse failingOptionalMetricFns "What is AI?"
          { text := "AI is the study of intelligent agents", metadata := {} }
          none true (some "be brief")).metrics.instruction_following = none) :=
  metric_failure_isolation failingOptionalMetricFns "What is AI?"
    { text := "AI is the study of intelligent agents", metadata := {} }
    none true (some "be brief") (by decide)

/-- C1: `cross_validate_responses` never returns an agreement matrix — for
every list of at least two responses it raises `AttributeError`, because
`ResponseEvaluator` does not define the `_calculate_text_similarity`
helper its matrix loop calls. -/
theorem cross_validate_raises (rs : List Response) (method : String)
    (h2 : 2 ≤ rs.length) :
    crossValidateResponses rs method = Except.error attributeErrorMsg := by
  obtain ⟨k, hk⟩ : ∃ k, rs.length = k + 2 := ⟨rs.length - 2, by omega⟩
  have hlt : ¬ rs.length < 2 := by omega
  have ht : List.range (k + 2) =
      0 :: 1 :: ((List.range k).map Nat.succ).map Nat.succ := by
    rw [List.range_succ_eq_map, List.range_succ_eq_map, List.map_cons]
  simp only [crossValidateResponses, if_neg hlt, hk, ht]
  simp [exceptMapList, evaluatorTextSimilarity]

/-- Witness for C1 at a concrete pair of responses. -/
theorem cross_validate_raises_witness :
    2 ≤ ([{ text := "Paris is the capital of France", metadata := {} },
          { text := "The capital of France is Paris", metadata := {} }] :
          List Response).length ∧
      crossValidateResponses
        [{ text := "Paris is the capital of France", metadata := {} },
         { text := "The capital of France is Paris", metadata := {} }]
        "comparison" = Except.error attributeErrorMsg :=
  ⟨by decide,
    cross_validate_raises
      [{ text := "Paris is the capital of France", metadata := {} },
       { text := "The capital of France is Paris", metadata := {} }]
      "comparison" (by decide)⟩

/-- C7: with explicit provider `"anthropic"` unregistered, no explicit
model and task `"general_chat"` against a registry containing only
`"ollama"`, the selector falls through to the priority-order rule and
returns `"ollama"` with the first entry of ollama's general-chat
recommendation list, raising nothing; and with an empty registry it
returns the no-suitable-backend result `(None, None)` instead of
raising. -/
theorem selector_fallthrough :
    selectProviderAndModel ollamaOnlyOrchestrator "general_chat" none
        (some "anthropic") = (some "ollama", some "mistral:7b") ∧
      (ollamaGetRecommendedModels "general_chat").head? = some "mistral:7b" ∧
      ∀ (o : Orchestrator) (taskType : String)
        (modelName provider : Option String), o.adapters = [] →
        selectProviderAndModel o taskType modelName provider = (none, none) := by
  refine ⟨by decide, by decide, ?_⟩
  intro o taskType modelName provider h
  simp [selectProviderAndModel, h]

/-- Witness for the empty-registry half of C7. -/
theorem selector_fallthrough_witness :
    emptyOrchestrator.adapters = [] ∧
      selectProviderAndModel emptyOrchestrator "math" (some "gpt-4") none =
        (none, none) :=
  ⟨rfl, selector_fallthrough.2.2 emptyOrchestrator "math" (some "gpt-4")
    none rfl⟩

/-- The dispatch-loop duration is the sum of the performed calls'
durations (`generate_multi_provider_response` performs its backend calls
one after the other). -/
theorem dispatchElapsed_eq_sum (registered : String → Bool)
    (cost : String → ℕ) (ps : List String) :
    dispatchElapsed registered cost ps =
      ((ps.filter registered).map cost).sum := by
  induction ps with
  | nil => rfl
  | cons p rest ih =>
    cases hreg : registered p <;>
      simp [dispatchElapsed, List.filter_cons, hreg, ih]

/-- A backend whose call succeeds contributes its response to the
dispatch-loop output whatever the other backends do. -/
theorem mem_dispatchResponses (registered : String → Bool)
    (gen : String → Except String Response) (ps : List String) (q : String)
    (hq : q ∈ ps) (hreg : registered q = true) (r : Response)
    (hgen : gen q = Except.ok r) :
    r ∈ dispatchResponses registered gen ps := by
  induction ps with
  | nil => cases hq
  | cons p rest ih =>
    rcases List.mem_cons.mp hq with hq1 | hq1
    · subst hq1
      simp [dispatchResponses, hreg, hgen]
    · have hr := ih hq1
      cases hp : registered p
      · simpa [dispatchResponses, hp] using hr
      · cases hg : gen p with
        | error e => simpa [dispatchResponses, hp, hg] using hr
        | ok r2 =>
          simp [dispatchResponses, hp, hg]
          exact Or.inr hr

/-- C9, counterexample: two registered backends of unit cost give the
sequential dispatch loop a wall-clock of 2, strictly above the
slowest-backend bound 1 the claim asserts. -/
theorem dispatch_concurrency_counterexample :
    dispatchElapsed (fun _ => true) (fun _ => 1) ["providerA", "providerB"] =
        2 ∧
      dispatchSlowest (fun _ => true) (fun _ => 1)
        ["providerA", "providerB"] = 1 ∧
      ¬ dispatchElapsed (fun _ => true) (fun _ => 1)
          ["providerA", "providerB"] ≤
        dispatchSlowest (fun _ => true) (fun _ => 1)
          ["providerA", "providerB"] := by
  refine ⟨rfl, rfl, by decide⟩

/-- C9, amended: the dispatch loop of `generate_multi_provider_response`
issues its backend calls sequentially — its wall-clock cost is the sum of
the performed calls' durations, not the maximum — while per-backend
failures stay isolated: a backend whose call succeeds always has its
response collected, whatever exceptions the other backends raise. -/
theorem dispatch_sequential_and_isolated (registered : String → Bool)
    (gen : String → Except String Response) (cost : String → ℕ)
    (ps : List String) :
    dispatchElapsed registered cost ps =
        ((ps.filter registered).map cost).sum ∧
      ∀ q ∈ ps, registered q = true → ∀ r, gen q = Except.ok r →
        r ∈ dispatchResponses registered gen ps :=
  ⟨dispatchElapsed_eq_sum registered cost ps,
    fun q hq hreg r hgen =>
      mem_dispatchResponses registered gen ps q hq hreg r hgen⟩

/-- The sample collected response of the C9 witness. -/
def sampleOkResponse : Response := { text := "fine answer", metadata := {} }

/-- A two-backend world where `providerB` raises and `providerA`
succeeds. -/
def witnessGen : String → Except String Response := fun p =>
  if p = "providerB" then Except.error "backend down"
  else Except.ok sampleOkResponse

/-- Witness for the amended C9: despite `providerB` raising first, the
loop still collects `providerA`'s response, and the elapsed time is the
sum of the costs. -/
theorem dispatch_sequential_and_isolated_witness :
    dispatchElapsed (fun _ => true) (fun _ => 3)
        ["providerB", "providerA"] =
      (((["providerB", "providerA"]).filter (fun _ => true)).map
        (fun _ => 3)).sum ∧
      sampleOkResponse ∈
        dispatchResponses (fun _ => true) witnessGen
          ["providerB", "providerA"] := by
  have h := dispatch_sequential_and_isolated (fun _ => true) witnessGen
    (fun _ => 3) ["providerB", "providerA"]
  exact ⟨h.1, h.2 "providerA" (by simp) rfl sampleOkResponse
    (by simp [witnessGen])⟩

/-- C10: for at least two responses and a strategy string outside the four
known ones, `consolidate_responses` neither fails nor returns an error
dictionary — it applies the weighting procedure — while
`consolidation_method` still records the caller's original strategy
string. -/
theorem unknown_strategy_defaults_to_weighting (rs : List Response)
    (strategy : String) (h2 : 2 ≤ rs.length)
    (hs : strategy ∉ (["weight_by_confidence", "majority_vote",
      "highest_confidence", "ensemble"] : List String)) :
    consolidateResponses rs strategy =
      { text := (consolidateByWeighting rs).text,
        metadata := { (consolidateByWeighting rs).metadata with
          source_count := some rs.length,
          consolidation_method := some strategy,
          source_models := some (rs.map
            (fun r => r.metadata.model.getD "unknown")) } } ∧
      (consolidateResponses rs strategy).metadata.error = none := by
  simp only [List.mem_cons, List.mem_singleton, not_or] at hs
  obtain ⟨h1, h3, h4, h5, -⟩ := hs
  cases rs with
  | nil => simp at h2
  | cons a rest =>
    cases rest with
    | nil => simp at h2
    | cons b t =>
      refine ⟨?_, ?_⟩ <;>
        · simp only [consolidateResponses]
          rw [if_neg h1, if_neg h3, if_neg h4, if_neg h5]
          try rfl

/-- The first witness response for C10. -/
def respWitA : Response :=
  { text := "alpha beta gamma strings",
    metadata := { model := some "gpt-4", confidence := some (9 / 10) } }

/-- The second witness response for C10. -/
def respWitB : Response :=
  { text := "delta epsilon zeta words",
    metadata := { model := none, confidence := some (1 / 2) } }

/-- Witness for C10 at a concrete unknown strategy string. -/
theorem unknown_strategy_defaults_to_weighting_witness :
    consolidateResponses [respWitA, respWitB] "custom_strategy" =
      { text := (consolidateByWeighting [respWitA, respWitB]).text,
        metadata := { (consolidateByWeighting
            [respWitA, respWitB]).metadata with
          source_count := some ([respWitA, respWitB] : List Response).length,
          consolidation_method := some "custom_strategy",
          source_models := some (([respWitA, respWitB] : List Response).map
            (fun r => r.metadata.model.getD "unknown")) } } ∧
      (consolidateResponses [respWitA, respWitB]
        "custom_strategy").metadata.error = none :=
  unknown_strategy_defaults_to_weighting [respWitA, respWitB]
    "custom_strategy" (by decide) (by decide)

/-- The threshold the claim asserts for majority vote:
`max(2, ceil(N × 0.6))`, i.e. `max 2 ⌈3N/5⌉`. -/
def majorityCeilThreshold (n : ℕ) : ℕ := max 2 ((3 * n + 4) / 5)

/-- First majority-vote sample response (clustered with the second). -/
def mvR1 : Response :=
  { text := "Paris is the capital city of France.",
    metadata := { model := some "gpt-4", confidence := some (9 / 10) } }

/-- Second majority-vote sample response (clustered with the first). -/
def mvR2 : Response :=
  { text := "The capital city of France is Paris definitely.",
    metadata := { model := some "claude-3-opus", confidence := some (4 / 5) } }

/-- Third majority-vote sample response (its own singleton cluster). -/
def mvR3 : Response :=
  { text := "Bananas contain lots of potassium nutrients.",
    metadata := { model := none, confidence := some (1 / 2) } }

/-- Fourth majority-vote sample response (its own singleton cluster). -/
def mvR4 : Response :=
  { text := "Quantum computers use entangled qubits heavily.",
    metadata := { model := none, confidence := some (3 / 5) } }

/-- Four responses whose statements cluster as one pair and two
singletons. -/
def mvResponses : List Response := [mvR1, mvR2, mvR3, mvR4]

/-- C2, counterexample: with these four responses, majority vote outputs a
statement backed by a cluster of size 2, although the claim threshold
`max(2, ceil(4 × 0.6)) = 3` is reached by no cluster at all — the source
truncates (`int(len(responses) * 0.6)` on line 151 of
`knowledge_consolidator.py` gives 2), it does not take the ceiling. -/
theorem majority_vote_ceil_counterexample :
    (consolidateResponses mvResponses "majority_vote").text =
        "The capital city of France is Paris definitely" ∧
      majorityCeilThreshold mvResponses.length = 3 ∧
      majorityThreshold mvResponses.length = 2 ∧
      ∀ c ∈ clusterSimilarStatements
          (mvResponses.flatMap (fun r => extractStatements r.text)),
        c.length < 3 := by
  refine ⟨by with_unfolding_all decide, by decide, by decide,
    by with_unfolding_all decide⟩

/-- C2, amended: for every list of `N ≥ 2` responses in which at least one
statement cluster reaches the code threshold
`max(2, int(N × 0.6)) = max 2 ⌊3N/5⌋` (Python `int` truncation, not the
ceiling the claim states), the majority-vote text is exactly the longest
statement of each cluster of size ≥ that threshold, concatenated in
cluster order; (when no cluster reaches it, the source instead falls back
to the highest-confidence response's text). -/
theorem majority_vote_amended (rs : List Response) (h2 : 2 ≤ rs.length)
    (hsurv : ∃ c ∈ clusterSimilarStatements
        (rs.flatMap (fun r => extractStatements r.text)),
      majorityThreshold rs.length ≤ c.length) :
    (consolidateResponses rs "majority_vote").text =
      String.intercalate " "
        (((clusterSimilarStatements
            (rs.flatMap (fun r => extractStatements r.text))).filter
          (fun c => majorityThreshold rs.length ≤ c.length)).map maxByLen) := by
  cases rs with
  | nil => simp at h2
  | cons a rest =>
    cases rest with
    | nil => simp at h2
    | cons b t =>
      obtain ⟨c, hc, hlen⟩ := hsurv
      have hne : (clusterSimilarStatements
          ((a :: b :: t).flatMap (fun r => extractStatements r.text))).filter
            (fun c => majorityThreshold (a :: b :: t).length ≤ c.length) ≠
          [] :=
        List.ne_nil_of_mem (List.mem_filter.mpr ⟨hc, by simpa using hlen⟩)
      have htext : (consolidateResponses (a :: b :: t) "majority_vote").text =
          (consolidateByMajorityVote (a :: b :: t)).text := rfl
      rw [htext]
      simp only [consolidateByMajorityVote]
      rw [if_pos hne]

/-- Witness for the amended C2 at `mvResponses` (one pair cluster reaches
the truncated threshold 2). -/
theorem majority_vote_amended_witness :
    2 ≤ mvResponses.length ∧
      (∃ c ∈ clusterSimilarStatements
          (mvResponses.flatMap (fun r => extractStatements r.text)),
        majorityThreshold mvResponses.length ≤ c.length) ∧
      (consolidateResponses mvResponses "majority_vote").text =
        String.intercalate " "
          (((clusterSimilarStatements
              (mvResponses.flatMap (fun r => extractStatements r.text))).filter
            (fun c => majorityThreshold mvResponses.length ≤ c.length)).map
            maxByLen) :=
  ⟨by decide, by with_unfolding_all decide,
    majority_vote_amended mvResponses (by decide)
      (by with_unfolding_all decide)⟩

/-- C8: for every list of at least two responses, the ensemble strategy
computes the weighted, majority-vote and highest-confidence results,
measures the text similarity of their three outputs, and returns the
weighted result when it exceeds 0.8, the 0.6/0.4 weighted-merge of the
weighted and majority texts when it lies in (0.5, 0.8], and the
highest-confidence result otherwise, recording the chosen branch in
`ensemble_choice` and the measured similarity in `methods_agreement`. -/
theorem ensemble_branch_structure (rs : List Response) (h2 : 2 ≤ rs.length) :
    (consolidateResponses rs "ensemble").metadata.methods_agreement =
        some (calcTextSimilarity [(consolidateByWeighting rs).text,
          (consolidateByMajorityVote rs).text,
          (consolidateByHighestConfidence rs).text]) ∧
      (consolidateResponses rs "ensemble").metadata.source_count =
        some rs.length ∧
      (consolidateResponses rs "ensemble").metadata.consolidation_method =
        some "ensemble" ∧
      (4 / 5 < calcTextSimilarity [(consolidateByWeighting rs).text,
          (consolidateByMajorityVote rs).text,
          (consolidateByHighestConfidence rs).text] →
        (consolidateResponses rs "ensemble").text =
            (consolidateByWeighting rs).text ∧
          (consolidateResponses rs "ensemble").metadata.ensemble_choice =
            some "weighted") ∧
      (1 / 2 < calcTextSimilarity [(consolidateByWeighting rs).text,
          (consolidateByMajorityVote rs).text,
          (consolidateByHighestConfidence rs).text] →
        calcTextSimilarity [(consolidateByWeighting rs).text,
          (consolidateByMajorityVote rs).text,
          (consolidateByHighestConfidence rs).text] ≤ 4 / 5 →
        (consolidateResponses rs "ensemble").text =
            createWeightedText
              [((consolidateByWeighting rs).text, 3 / 5),
               ((consolidateByMajorityVote rs).text, 2 / 5)] ∧
          (consolidateResponses rs "ensemble").metadata.ensemble_choice =
            some "weighted_majority_mix") ∧
      (calcTextSimilarity [(consolidateByWeighting rs).text,
          (consolidateByMajorityVote rs).text,
          (consolidateByHighestConfidence rs).text] ≤ 1 / 2 →
        (consolidateResponses rs "ensemble").text =
            (consolidateByHighestConfidence rs).text ∧
          (consolidateResponses rs "ensemble").metadata.ensemble_choice =
            some "highest_confidence") := by
  cases rs with
  | nil => simp at h2
  | cons a rest =>
    cases rest with
    | nil => simp at h2
    | cons b t =>
      refine ⟨rfl, rfl, rfl, ?_, ?_, ?_⟩
      · intro hgt
        constructor
        · show (consolidateByEnsemble (a :: b :: t)).text = _
          simp only [consolidateByEnsemble]
          rw [if_pos hgt]
        · show (consolidateByEnsemble
            (a :: b :: t)).metadata.ensemble_choice = _
          simp only [consolidateByEnsemble]
          rw [if_pos hgt]
      · intro hmid hle
        have hgt : ¬ (4 : ℚ) / 5 <
            calcTextSimilarity [(consolidateByWeighting (a :: b :: t)).text,
              (consolidateByMajorityVote (a :: b :: t)).text,
              (consolidateByHighestConfidence (a :: b :: t)).text] :=
          not_lt.mpr hle
        constructor
        · show (consolidateByEnsemble (a :: b :: t)).text = _
          simp only [consolidateByEnsemble]
          rw [if_neg hgt, if_pos hmid]
        · show (consolidateByEnsemble
            (a :: b :: t)).metadata.ensemble_choice = _
          simp only [consolidateByEnsemble]
          rw [if_neg hgt, if_pos hmid]
      · intro hle
        have hgt : ¬ (4 : ℚ) / 5 <
            calcTextSimilarity [(consolidateByWeighting (a :: b :: t)).text,
              (consolidateByMajorityVote (a :: b :: t)).text,
              (consolidateByHighestConfidence (a :: b :: t)).text] :=
          not_lt.mpr (le_trans hle (by norm_num))
        have hmid : ¬ (1 : ℚ) / 2 <
            calcTextSimilarity [(consolidateByWeighting (a :: b :: t)).text,
              (consolidateByMajorityVote (a :: b :: t)).text,
              (consolidateByHighestConfidence (a :: b :: t)).text] :=
          not_lt.mpr hle
        constructor
        · show (consolidateByEnsemble (a :: b :: t)).text = _
          simp only [consolidateByEnsemble]
          rw [if_neg hgt, if_neg hmid]
        · show (consolidateByEnsemble
            (a :: b :: t)).metadata.ensemble_choice = _
          simp only [consolidateByEnsemble]
          rw [if_neg hgt, if_neg hmid]

/-- First ensemble witness response. -/
def ensA : Response :=
  { text := "alpha beta gamma delta epsilon zeta eta theta",
    metadata := { model := some "gpt-4", confidence := some (9 / 10) } }

/-- Second ensemble witness response. -/
def ensB : Response :=
  { text := "one two three four five six seven eight",
    metadata := { model := some "claude-3-opus", confidence := some (3 / 5) } }

/-- Witness for C8 at a concrete pair of responses. -/
theorem ensemble_branch_structure_witness :
    (consolidateResponses [ensA, ensB] "ensemble").metadata.methods_agreement =
        some (calcTextSimilarity
          [(consolidateByWeighting [ensA, ensB]).text,
           (consolidateByMajorityVote [ensA, ensB]).text,
           (consolidateByHighestConfidence [ensA, ensB]).text]) ∧
      (consolidateResponses [ensA, ensB] "ensemble").metadata.source_count =
        some ([ensA, ensB] : List Response).length ∧
      (consolidateResponses [ensA, ensB]
          "ensemble").metadata.consolidation_method = some "ensemble" ∧
      (4 / 5 < calcTextSimilarity
          [(consolidateByWeighting [ensA, ensB]).text,
           (consolidateByMajorityVote [ensA, ensB]).text,
           (consolidateByHighestConfidence [ensA, ensB]).text] →
        (consolidateResponses [ensA, ensB] "ensemble").text =
            (consolidateByWeighting [ensA, ensB]).text ∧
          (consolidateResponses [ensA, ensB]
            "ensemble").metadata.ensemble_choice = some "weighted") ∧
      (1 / 2 < calcTextSimilarity
          [(consolidateByWeighting [ensA, ensB]).text,
           (consolidateByMajorityVote [ensA, ensB]).text,
           (consolidateByHighestConfidence [ensA, ensB]).text] →
        calcTextSimilarity
          [(consolidateByWeighting [ensA, ensB]).text,
           (consolidateByMajorityVote [ensA, ensB]).text,
           (consolidateByHighestConfidence [ensA, ensB]).text] ≤ 4 / 5 →
        (consolidateResponses [ensA, ensB] "ensemble").text =
            createWeightedText
              [((consolidateByWeighting [ensA, ensB]).text, 3 / 5),
               ((consolidateByMajorityVote [ensA, ensB]).text, 2 / 5)] ∧
          (consolidateResponses [ensA, ensB]
            "ensemble").metadata.ensemble_choice =
            some "weighted_majority_mix") ∧
      (calcTextSimilarity
          [(consolidateByWeighting [ensA, ensB]).text,
           (consolidateByMajorityVote [ensA, ensB]).text,
           (consolidateByHighestConfidence [ensA, ensB]).text] ≤ 1 / 2 →
        (consolidateResponses [ensA, ensB] "ensemble").text =
            (consolidateByHighestConfidence [ensA, ensB]).text ∧
          (consolidateResponses [ensA, ensB]
            "ensemble").metadata.ensemble_choice =
            some "highest_confidence") :=
  ensemble_branch_structure [ensA, ensB] (by decide)

end Lucie
